import Mathlib

/-!
Verification of the selection-detection heuristic cascade of a
PowerPoint add-in.  The JavaScript source is shallowly embedded: the
host's asynchronous object model is captured by a `HostEnv` snapshot
describing what each host API call would return during one detection
pass, and each detection function of the source becomes a pure Lean
function over that snapshot.  Host-API calls that can throw
(unsupported API, transient host error) are modelled as `Except`
values; the source's `try`/`catch` blocks turn the `error` case into
"this strategy found nothing", exactly as the code does.
-/

namespace PPAddin

/-- Image metadata of a Picture shape (`picture.imageData` in the source);
`format` is `picture.imageData.format`, absent when the host does not
report one. -/
structure ImageData where
  format : Option String := none
deriving Repr, DecidableEq, Inhabited

/-- One shape on a slide, as loaded from the host object model.  Optional
fields model host properties that may be `undefined` in JavaScript;
`isSelected` is `false` when the host does not support the flag (an
`undefined` flag is falsy in the source's filters). -/
structure Shape where
  name : Option String := none
  id : String := ""
  type : Option String := none
  text : Option String := none
  left : Int := 0
  top : Int := 0
  width : Int := 0
  height : Int := 0
  zIndex : Int := 0
  isSelected : Bool := false
  altTextDescription : Option String := none
  altTextTitle : Option String := none
  imageData : Option ImageData := none
  lastModified : Option Nat := none
deriving Repr, DecidableEq, Inhabited

/-- The per-pass aggregate built by the detection functions
(`selectionInfo` in the source). -/
structure SelectionInfo where
  text : Option String := none
  shapes : List Shape := []
  pictures : List Shape := []
  detectionMethod : Option String := none
  allShapes : Option (List Shape) := none
  allPictures : Option (List Shape) := none
deriving Repr, DecidableEq, Inhabited

/-- The fresh `selectionInfo` object created at the start of a pass. -/
def emptySelectionInfo : SelectionInfo := {}

/-- Snapshot of everything the host would answer during one detection
pass.  `selectedSlides` lists each selected slide as its shape list;
`getSelection` is the result of `context.presentation.getSelection()`
followed by loading its shapes (`error` = the call threw);
`activeViewSelection` is `getActiveView()`/`view.selection` (`ok none` =
a null `view.selection`); `selectedTextValue` is the value delivered by
`getSelectedDataAsync` (`none` = failed status). -/
structure HostEnv where
  selectedSlides : List (List Shape)
  getSelection : Except String (List Shape)
  activeViewSelection : Except String (Option (List Shape))
  hasMousePositionData : Bool
  lastClickedPosition : Int × Int
  selectedTextValue : Option String

/-- JavaScript truthiness of an optional string (`undefined`, `null` and
`""` are falsy). -/
def truthyStr : Option String → Bool
  | none => false
  | some s => !s.isEmpty

/-- JavaScript `s || d` for an optional string `s`. -/
def strOr : Option String → String → String
  | none, d => d
  | some s, d => if s.isEmpty then d else s

/-- The guarded tag write
`if (!selectionInfo.detectionMethod) selectionInfo.detectionMethod = tag`
used by the shape cascade and the picture sub-cascade. -/
def claimTag : Option String → String → Option String
  | none, tag => some tag
  | some m, _ => some m

/-- The point-in-rectangle test used by the position-based strategies
(identical conditions at part_001 lines 223-226 and 442-445): all four
comparisons are inclusive. -/
def pointInShape (p : Int × Int) (s : Shape) : Bool :=
  decide (s.left ≤ p.1) && decide (p.1 ≤ s.left + s.width) &&
  decide (s.top ≤ p.2) && decide (p.2 ≤ s.top + s.height)

/-- Comparator relation of `sort((a, b) => b.zIndex - a.zIndex)`:
descending by z-index. -/
def zTopRel (a b : Shape) : Prop := b.zIndex ≤ a.zIndex

instance : DecidableRel zTopRel := fun a b => inferInstanceAs (Decidable (b.zIndex ≤ a.zIndex))

instance : IsTotal Shape zTopRel := ⟨fun a b => le_total b.zIndex a.zIndex⟩

instance : IsTrans Shape zTopRel := ⟨fun _ _ _ hab hbc => le_trans hbc hab⟩

/-- Stable descending sort by z-index, the meaning of the source's
`sort((a, b) => b.zIndex - a.zIndex)` (JavaScript `Array.sort` is
stable). -/
def sortByZDesc (l : List Shape) : List Shape := l.insertionSort zTopRel

/-- Timestamp used by the most-recently-modified heuristic
(`new Date(shape.lastModified)` in the source, as a numeric instant). -/
def modTime (s : Shape) : Nat := s.lastModified.getD 0

/-- Comparator relation of
`sort((a, b) => new Date(b.lastModified) - new Date(a.lastModified))`:
descending by timestamp. -/
def modTopRel (a b : Shape) : Prop := modTime b ≤ modTime a

instance : DecidableRel modTopRel := fun a b => inferInstanceAs (Decidable (modTime b ≤ modTime a))

instance : IsTotal Shape modTopRel := ⟨fun a b => le_total (modTime b) (modTime a)⟩

instance : IsTrans Shape modTopRel := ⟨fun _ _ _ hab hbc => le_trans hbc hab⟩

/-- Stable descending sort by last-modified timestamp. -/
def sortByModifiedDesc (l : List Shape) : List Shape := l.insertionSort modTopRel

/-- Text channel of part_001 (`detectSelectionText`, lines 124-143): on a
successful `getSelectedDataAsync` with non-empty text it records the
text, sets the method tag to "text" unconditionally, and updates the
module-level `lastSelectedText`. -/
def detectSelectionText (env : HostEnv) (si : SelectionInfo) (lastText : String) :
    SelectionInfo × String :=
  match env.selectedTextValue with
  | none => (si, lastText)
  | some v =>
    if 0 < v.length then
      ({ si with text := some v, detectionMethod := some "text" }, v)
    else (si, lastText)

/-- Picture-specific sub-cascade of part_001 (`detectPicturesSpecifically`,
lines 146-253): filter the slide's shapes to Pictures, prefer those with
`isSelected`, else those containing the last clicked position (sorted
topmost first), else remember the full picture list. -/
def detectPicturesSpecifically (env : HostEnv) (si : SelectionInfo) : SelectionInfo :=
  match env.selectedSlides with
  | [] => si
  | slideShapes :: _ =>
    if slideShapes.isEmpty then si
    else
      let pictures := slideShapes.filter (fun s => s.type == some "Picture")
      if pictures.isEmpty then si
      else
        let selectedPictures := pictures.filter (fun p => p.isSelected)
        let si1 :=
          if 0 < selectedPictures.length then
            { si with pictures := selectedPictures,
                      detectionMethod := claimTag si.detectionMethod "picture-isSelected" }
          else si
        let si2 :=
          if si1.pictures.length == 0 && env.hasMousePositionData then
            let picturesAtPosition := pictures.filter (pointInShape env.lastClickedPosition)
            if 0 < picturesAtPosition.length then
              { si1 with pictures := sortByZDesc picturesAtPosition,
                         detectionMethod := claimTag si1.detectionMethod "picture-position" }
            else si1
          else si1
        if si2.pictures.length == 0 then { si2 with allPictures := some pictures } else si2

/-- Trace tag for each region of `detectShapesDirectly` that the control
flow enters ("Approach 1" .. the final fallback in the source). -/
inductive Approach where
  | directSelection
  | activeView
  | selectedFlagScan
  | lastModifiedScan
  | positionScan
  | zOrderFallback
deriving Repr, DecidableEq

/-- Approach 1 of part_001 (lines 277-316): `getSelection()`; a thrown
error is caught and treated as not found. -/
def approach1 (env : HostEnv) (si : SelectionInfo) : Option SelectionInfo :=
  match env.getSelection with
  | .error _ => none
  | .ok selShapes =>
    if 0 < selShapes.length then
      some { si with shapes := selShapes,
                     detectionMethod := claimTag si.detectionMethod "direct-selection" }
    else none

/-- Approach 2 of part_001 (lines 319-349): `getActiveView().selection`. -/
def approach2 (env : HostEnv) (si : SelectionInfo) : Option SelectionInfo :=
  match env.activeViewSelection with
  | .error _ => none
  | .ok none => none
  | .ok (some viewShapes) =>
    if 0 < viewShapes.length then
      some { si with shapes := viewShapes,
                     detectionMethod := claimTag si.detectionMethod "active-view" }
    else none

/-- Approach 3 of part_001 (lines 363-397): keep every shape whose
`isSelected` flag is set. -/
def approach3 (si : SelectionInfo) (shapes : List Shape) : Option SelectionInfo :=
  let selectedShapes := shapes.filter (fun s => s.isSelected)
  if 0 < selectedShapes.length then
    some { si with shapes := selectedShapes,
                   detectionMethod := claimTag si.detectionMethod "isSelected" }
  else none

/-- Approach 4 of part_001 (lines 400-430): of the shapes carrying a
`lastModified` timestamp, sort descending and keep the single most
recently modified one. -/
def approach4 (si : SelectionInfo) (shapes : List Shape) : Option SelectionInfo :=
  let shapesWithModifiedTime := shapes.filter (fun s => s.lastModified.isSome)
  if 0 < shapesWithModifiedTime.length then
    match sortByModifiedDesc shapesWithModifiedTime with
    | [] => none
    | mostRecent :: _ =>
      some { si with shapes := [mostRecent],
                     detectionMethod := claimTag si.detectionMethod "lastModified" }
  else none

/-- Approach 5 of part_001 (lines 434-463): keep every shape whose box
contains the last clicked position, topmost (highest z-index) first. -/
def approach5 (env : HostEnv) (si : SelectionInfo) (shapes : List Shape) :
    Option SelectionInfo :=
  let shapesAtPosition := shapes.filter (pointInShape env.lastClickedPosition)
  if 0 < shapesAtPosition.length then
    some { si with shapes := sortByZDesc shapesAtPosition,
                   detectionMethod := claimTag si.detectionMethod "position" }
  else none

/-- Shape cascade of part_001 (`detectShapesDirectly`, lines 256-492),
with a trace recording which approach regions the control flow entered.
Approaches 1-2 run before the empty-slide check (source lines 352-358);
approach 5 runs only when `hasMousePositionData` is set; when everything
fails the full shape list is retained (`allShapes`, approach 6). -/
def detectShapesDirectly (env : HostEnv) (si : SelectionInfo) :
    SelectionInfo × List Approach :=
  match env.selectedSlides with
  | [] => (si, [])
  | slideShapes :: _ =>
    match approach1 env si with
    | some si1 => (si1, [.directSelection])
    | none =>
      match approach2 env si with
      | some si2 => (si2, [.directSelection, .activeView])
      | none =>
        if slideShapes.isEmpty then (si, [.directSelection, .activeView])
        else
          match approach3 si slideShapes with
          | some si3 => (si3, [.directSelection, .activeView, .selectedFlagScan])
          | none =>
            match approach4 si slideShapes with
            | some si4 =>
              (si4, [.directSelection, .activeView, .selectedFlagScan, .lastModifiedScan])
            | none =>
              if env.hasMousePositionData then
                match approach5 env si slideShapes with
                | some si5 =>
                  (si5, [.directSelection, .activeView, .selectedFlagScan,
                         .lastModifiedScan, .positionScan])
                | none =>
                  ({ si with allShapes := some slideShapes },
                   [.directSelection, .activeView, .selectedFlagScan,
                    .lastModifiedScan, .positionScan, .zOrderFallback])
              else
                ({ si with allShapes := some slideShapes },
                 [.directSelection, .activeView, .selectedFlagScan,
                  .lastModifiedScan, .zOrderFallback])

/-- Apostrophe character, used in the tips text of the display strings. -/
def apos : String := String.singleton (Char.ofNat 39)

/-- Formatter for one picture (`getPictureDetailsString`, part_001 lines
602-624). -/
def getPictureDetailsString (picture : Shape) (index : Nat) : String :=
  let d1 := toString (index + 1) ++ ". " ++ strOr picture.name "Unnamed Picture" ++
    " (ID: " ++ picture.id ++ ")\n" ++
    "   Type: Picture/Image\n" ++
    "   Position: (" ++ toString picture.left ++ ", " ++ toString picture.top ++ ")\n" ++
    "   Size: " ++ toString picture.width ++ " x " ++ toString picture.height ++ "\n" ++
    "   Z-Index: " ++ toString picture.zIndex ++ "\n"
  let d2 := if truthyStr picture.altTextDescription then
      d1 ++ "   Alt Text: " ++ strOr picture.altTextDescription "" ++ "\n"
    else d1
  let d3 := if truthyStr picture.altTextTitle then
      d2 ++ "   Alt Text Title: " ++ strOr picture.altTextTitle "" ++ "\n"
    else d2
  let d4 := match picture.imageData with
    | some idata =>
      if truthyStr idata.format then d3 ++ "   Image Format: " ++ strOr idata.format "" ++ "\n"
      else d3
    | none => d3
  d4 ++ "\n"

/-- Formatter for one shape (`getDetailedShapeInfo`, part_001 lines
627-682).  An absent `type` prints as JavaScript "undefined". -/
def getDetailedShapeInfo (shape : Shape) (index : Nat) : String :=
  let d1 := toString (index + 1) ++ ". " ++ strOr shape.name "Unnamed" ++
    " (ID: " ++ shape.id ++ ")\n" ++
    "   Type: " ++ (match shape.type with | some t => t | none => "undefined") ++ "\n"
  let d2 :=
    match shape.type with
    | some "Picture" =>
      let p1 := d1 ++ "   Element Type: Image/Picture\n"
      let p2 := match shape.imageData with
        | some idata => p1 ++ "   Image Format: " ++ strOr idata.format "Unknown" ++ "\n"
        | none => p1
      let p3 := if truthyStr shape.altTextDescription then
          p2 ++ "   Alt Text: " ++ strOr shape.altTextDescription "" ++ "\n"
        else p2
      if truthyStr shape.altTextTitle then
        p3 ++ "   Alt Text Title: " ++ strOr shape.altTextTitle "" ++ "\n"
      else p3
    | some "Group" => d1 ++ "   Element Type: Group (contains multiple elements)\n"
    | some "Table" => d1 ++ "   Element Type: Table\n"
    | some "Chart" => d1 ++ "   Element Type: Chart\n"
    | some "SmartArt" => d1 ++ "   Element Type: SmartArt\n"
    | _ => d1
  let d3 := d2 ++ "   Position: (" ++ toString shape.left ++ ", " ++ toString shape.top ++
    ")\n" ++
    "   Size: " ++ toString shape.width ++ " x " ++ toString shape.height ++ "\n" ++
    "   Z-Index: " ++ toString shape.zIndex ++ "\n"
  let d4 := match shape.text with
    | some t =>
      if t.isEmpty then d3
      else
        let displayText := if 100 < t.length then t.take 100 ++ "..." else t
        d3 ++ "   Text: \"" ++ displayText ++ "\"\n"
    | none => d3
  d4 ++ "\n"

/-- Key under which a shape is grouped in the all-elements display
(`shape.type || "Unknown"`). -/
def typeKey (s : Shape) : String := strOr s.type "Unknown"

/-- Append a shape to the group of key `ty`, creating the group at the
end when absent — JavaScript object string-key insertion order. -/
def addToGroups (ty : String) (s : Shape) :
    List (String × List Shape) → List (String × List Shape)
  | [] => [(ty, [s])]
  | (t, ss) :: rest =>
    if t == ty then (t, ss ++ [s]) :: rest else (t, ss) :: addToGroups ty s rest

/-- Grouping of `elementsByType` in `displaySelectionInfo` (part_001
lines 514-523). -/
def groupShapesByType (shapes : List Shape) : List (String × List Shape) :=
  shapes.foldl (fun gs s => addToGroups (typeKey s) s gs) []

/-- One line block of the all-elements display (part_001 lines 534-539). -/
def allElementLine (idx : Nat) (e : Shape) : String :=
  toString (idx + 1) ++ ". " ++ strOr e.name "Unnamed" ++ " (ID: " ++ e.id ++ ")\n" ++
  "   Position: (" ++ toString e.left ++ ", " ++ toString e.top ++ ")\n" ++
  "   Size: " ++ toString e.width ++ " x " ++ toString e.height ++ "\n" ++
  "   Z-Index: " ++ toString e.zIndex ++ "\n\n"

/-- One per-type section of the all-elements display (part_001 lines
531-540). -/
def groupBlock (g : String × List Shape) : String :=
  "== " ++ g.1 ++ " Elements (" ++ toString g.2.length ++ ") ==\n\n" ++
  String.join (g.2.enum.map (fun p => allElementLine p.1 p.2))

/-- Tips appended to the no-selection display (part_001 lines 542-546). -/
def noSelectionTips : String :=
  "\nTips for selecting elements:\n" ++
  "1. Click directly on the element you want to examine\n" ++
  "2. Press the " ++ apos ++ "Get Info" ++ apos ++ " button immediately after selecting\n" ++
  "3. For text elements, try selecting some text within the element\n" ++
  "4. Try using the " ++ apos ++ "Capture Current Position" ++ apos ++
  " button while hovering over an element"

/-- Presentation formatter (`displaySelectionInfo`, part_001 lines
495-599), returning the string written to the display node. -/
def displaySelectionInfo (si : SelectionInfo) : String :=
  let hasSelection := truthyStr si.text || !si.shapes.isEmpty || !si.pictures.isEmpty
  if !hasSelection then
    let allShapes := si.allShapes.getD []
    let allPictures := si.allPictures.getD []
    let base := "No element is currently selected.\n\n"
    if 0 < allShapes.length || 0 < allPictures.length then
      let groups0 := groupShapesByType allShapes
      let groups :=
        if 0 < allPictures.length && (groups0.find? (fun g => g.1 == "Picture")).isNone then
          groups0 ++ [("Picture", allPictures)]
        else groups0
      base ++ "All elements on current slide (" ++
        toString (allShapes.length + allPictures.length) ++ " total):\n\n" ++
        String.join (groups.map groupBlock) ++ noSelectionTips
    else
      base ++ "No elements found on the current slide."
  else
    let m1 := "=== CURRENT SELECTION INFO ===\n\n"
    let m2 :=
      if truthyStr si.text then
        m1 ++ "SELECTED TEXT:\n\"" ++ strOr si.text "" ++ "\"\n\n"
      else m1
    let m3 :=
      if 0 < si.pictures.length then
        m2 ++ "SELECTED PICTURE" ++ (if 1 < si.pictures.length then "S" else "") ++ ":\n" ++
          String.join (si.pictures.enum.map (fun p => getPictureDetailsString p.2 p.1)) ++ "\n"
      else m2
    let m4 :=
      if 0 < si.shapes.length then
        let nonPictureShapes := si.shapes.filter (fun shape =>
          shape.type != some "Picture" || !(si.pictures.any (fun pic => pic.id == shape.id)))
        if 0 < nonPictureShapes.length then
          m3 ++ "SELECTED SHAPE" ++ (if 1 < nonPictureShapes.length then "S" else "") ++
            ":\n" ++
            String.join (nonPictureShapes.enum.map (fun p => getDetailedShapeInfo p.2 p.1))
        else m3
      else m3
    if truthyStr si.detectionMethod then
      m4 ++ "\nDetection method: " ++ strOr si.detectionMethod ""
    else m4

/-- One full detection pass of part_001 (`detectSelectedElement`, lines
92-121): a fresh `selectionInfo`, the three channels, then the
formatter.  `Promise.all` gives no completion-order guarantee; this
composition fixes the source's array order (text, pictures, shapes);
order-sensitive facts are stated against the individual channels.
Returns the displayed string and the updated `lastSelectedText`. -/
def detectSelectedElementPass (env : HostEnv) (lastText : String) : String × String :=
  let r1 := detectSelectionText env emptySelectionInfo lastText
  let si2 := detectPicturesSpecifically env r1.1
  let r3 := detectShapesDirectly env si2
  (displaySelectionInfo r3.1, r1.2)

/-- Substring test (`s.indexOf(pat) !== -1` in the source). -/
def strContainsSub (s pat : String) : Bool := decide (pat.data <:+: s.data)

/-- Text channel of part_002 (`detectSelectedElement`, lines 53-71):
the selected text is processed only when the `getSelectedDataAsync`
call succeeded, the text differs from `lastSelectedText`, and it is
non-empty.  Returns the recorded text (if any) and the updated
`lastSelectedText`. -/
def detectTextChannelV2 (textValue : Option String) (lastText : String) :
    Option String × String :=
  match textValue with
  | none => (none, lastText)
  | some selectedText =>
    if selectedText != lastText && 0 < selectedText.length then
      (some selectedText, selectedText)
    else (none, lastText)

/-- Match test of the part_002 scan (`getSelectedShapeDetails`, line
364): the shape's text is truthy and contains the selected text. -/
def shapeMatchesText (selectedText : String) (s : Shape) : Bool :=
  match s.text with
  | some t => !t.isEmpty && strContainsSub t selectedText
  | none => false

/-- Linear scan of part_002 (`getSelectedShapeDetails`, lines 358-378):
the first shape whose text contains the selected text — or, failing
that check, whose `isSelected` flag is set — wins and the loop breaks. -/
def findShapeForText (shapes : List Shape) (selectedText : String) : Option Shape :=
  match shapes with
  | [] => none
  | s :: rest =>
    if shapeMatchesText selectedText s then some s
    else if s.isSelected then some s
    else findShapeForText rest selectedText

/-- Quiet period of the debounced change trigger (300 ms, part_001 line
88 and part_002 line 41). -/
def debounceDelay : Nat := 300

/-- Debounce simulation: a timer pending since event time `pendingAt`
fires at `pendingAt + debounceDelay` unless a further event arrives
strictly before that instant, in which case `clearTimeout` cancels it
and the new event restarts the timer (part_001 lines 79-89, part_002
lines 32-42).  Events are given in arrival order; the result lists the
instants at which a detection pass fires. -/
def debounceRun (pendingAt : Nat) : List Nat → List Nat
  | [] => [pendingAt + debounceDelay]
  | e :: rest =>
    if e < pendingAt + debounceDelay then debounceRun e rest
    else (pendingAt + debounceDelay) :: debounceRun e rest

/-- Fire instants produced by a whole event sequence. -/
def debounceFires : List Nat → List Nat
  | [] => []
  | e :: rest => debounceRun e rest

/-- Concrete fixture: a generic selected shape. -/
def boxShape : Shape :=
  { name := some "Box", id := "s1", type := some "GeometricShape",
    text := some "hello world", left := 0, top := 0, width := 100, height := 50,
    zIndex := 1, isSelected := true }

/-- Concrete fixture: an unselected picture. -/
def picShape : Shape :=
  { name := some "Pic", id := "s2", type := some "Picture", left := 10, top := 10,
    width := 30, height := 30, zIndex := 5 }

/-- Concrete fixture: an unselected rectangle containing (15, 15),
z-index 1. -/
def boxRect : Shape :=
  { name := some "BigBox", id := "r1", type := some "GeometricShape", left := 0,
    top := 0, width := 100, height := 50, zIndex := 1 }

/-- Concrete fixture: an unselected rectangle containing (15, 15),
z-index 5. -/
def picRect : Shape :=
  { name := some "SmallBox", id := "r2", type := some "GeometricShape", left := 10,
    top := 10, width := 30, height := 30, zIndex := 5 }

/-- Host snapshot in which the selection APIs of strategies 1 and 2 both
throw (the unsupported-API situation of older hosts). -/
def envNoApi (slides : List (List Shape)) (hmp : Bool) (pos : Int × Int)
    (tv : Option String) : HostEnv :=
  { selectedSlides := slides, getSelection := Except.error "API not supported",
    activeViewSelection := Except.error "API not supported",
    hasMousePositionData := hmp, lastClickedPosition := pos, selectedTextValue := tv }

/-- Concrete fixture for C9: the Picture-kind shape of the round-trip
property. -/
def logoPicture : Shape :=
  { name := some "Logo", id := "p1", type := some "Picture", left := 10, top := 20,
    width := 100, height := 50, zIndex := 2, altTextDescription := some "A logo" }

theorem claimTag_some (m : Option String) (t : String) (v : String) (hm : m = some v) :
    claimTag m t = some v := by subst hm; rfl

theorem claimTag_none (t : String) : claimTag none t = some t := rfl

theorem mem_sortByZDesc {l : List Shape} {s : Shape} : s ∈ sortByZDesc l ↔ s ∈ l :=
  (List.perm_insertionSort zTopRel l).mem_iff

theorem sortByZDesc_sorted (l : List Shape) : List.Sorted zTopRel (sortByZDesc l) :=
  List.sorted_insertionSort zTopRel l

theorem sortByZDesc_ne_nil {l : List Shape} (h : l ≠ []) : sortByZDesc l ≠ [] := by
  intro hc
  apply h
  have hlen := (List.perm_insertionSort zTopRel l).length_eq
  rw [sortByZDesc] at hc
  rw [hc] at hlen
  exact List.length_eq_zero.mp hlen.symm

theorem headI_zIndex_max {l : List Shape} (hs : List.Sorted zTopRel l) :
    ∀ s ∈ l, s.zIndex ≤ l.headI.zIndex := by
  intro s hmem
  cases l with
  | nil => cases hmem
  | cons a t =>
    rcases List.mem_cons.mp hmem with rfl | hmem'
    · exact le_refl _
    · exact List.rel_of_sorted_cons hs s hmem'

theorem mem_sortByModifiedDesc {l : List Shape} {s : Shape} :
    s ∈ sortByModifiedDesc l ↔ s ∈ l :=
  (List.perm_insertionSort modTopRel l).mem_iff

theorem sortByModifiedDesc_sorted (l : List Shape) :
    List.Sorted modTopRel (sortByModifiedDesc l) :=
  List.sorted_insertionSort modTopRel l

theorem headI_modTime_max {l : List Shape} (hs : List.Sorted modTopRel l) :
    ∀ s ∈ l, modTime s ≤ modTime l.headI := by
  intro s hmem
  cases l with
  | nil => cases hmem
  | cons a t =>
    rcases List.mem_cons.mp hmem with rfl | hmem'
    · exact le_refl _
    · exact List.rel_of_sorted_cons hs s hmem'

theorem approach1_error {env : HostEnv} (si : SelectionInfo) {e : String}
    (h : env.getSelection = Except.error e) : approach1 env si = none := by
  simp [approach1, h]

theorem approach2_error {env : HostEnv} (si : SelectionInfo) {e : String}
    (h : env.activeViewSelection = Except.error e) : approach2 env si = none := by
  simp [approach2, h]

theorem approach1_tag {env : HostEnv} {si si' : SelectionInfo}
    (h : approach1 env si = some si') :
    ∃ t, si'.detectionMethod = claimTag si.detectionMethod t := by
  unfold approach1 at h
  split at h
  · exact absurd h (by simp)
  · split at h
    · injection h with h; subst h; exact ⟨"direct-selection", rfl⟩
    · exact absurd h (by simp)

theorem approach2_tag {env : HostEnv} {si si' : SelectionInfo}
    (h : approach2 env si = some si') :
    ∃ t, si'.detectionMethod = claimTag si.detectionMethod t := by
  unfold approach2 at h
  split at h
  · exact absurd h (by simp)
  · exact absurd h (by simp)
  · split at h
    · injection h with h; subst h; exact ⟨"active-view", rfl⟩
    · exact absurd h (by simp)

theorem approach3_tag {si si' : SelectionInfo} {shapes : List Shape}
    (h : approach3 si shapes = some si') :
    ∃ t, si'.detectionMethod = claimTag si.detectionMethod t := by
  unfold approach3 at h
  dsimp only at h
  split at h
  · injection h with h; subst h; exact ⟨"isSelected", rfl⟩
  · exact absurd h (by simp)

theorem approach4_tag {si si' : SelectionInfo} {shapes : List Shape}
    (h : approach4 si shapes = some si') :
    ∃ t, si'.detectionMethod = claimTag si.detectionMethod t := by
  unfold approach4 at h
  dsimp only at h
  split at h
  · split at h
    · exact absurd h (by simp)
    · injection h with h; subst h; exact ⟨"lastModified", rfl⟩
  · exact absurd h (by simp)

theorem approach5_tag {env : HostEnv} {si si' : SelectionInfo} {shapes : List Shape}
    (h : approach5 env si shapes = some si') :
    ∃ t, si'.detectionMethod = claimTag si.detectionMethod t := by
  unfold approach5 at h
  dsimp only at h
  split at h
  · injection h with h; subst h; exact ⟨"position", rfl⟩
  · exact absurd h (by simp)

theorem detectShapesDirectly_preserves_tag (env : HostEnv) (si : SelectionInfo)
    (m : String) (hm : si.detectionMethod = some m) :
    (detectShapesDirectly env si).1.detectionMethod = some m := by
  unfold detectShapesDirectly
  split
  · exact hm
  next slideShapes rest heq =>
    cases h1 : approach1 env si with
    | some si1 =>
      obtain ⟨t, ht⟩ := approach1_tag h1
      simp [h1, ht, claimTag_some _ _ _ hm]
    | none =>
      cases h2 : approach2 env si with
      | some si2 =>
        obtain ⟨t, ht⟩ := approach2_tag h2
        simp [h1, h2, ht, claimTag_some _ _ _ hm]
      | none =>
        by_cases hemp : slideShapes.isEmpty
        · simp [h1, h2, hemp, hm]
        · cases h3 : approach3 si slideShapes with
          | some si3 =>
            obtain ⟨t, ht⟩ := approach3_tag h3
            simp [h1, h2, hemp, h3, ht, claimTag_some _ _ _ hm]
          | none =>
            cases h4 : approach4 si slideShapes with
            | some si4 =>
              obtain ⟨t, ht⟩ := approach4_tag h4
              simp [h1, h2, hemp, h3, h4, ht, claimTag_some _ _ _ hm]
            | none =>
              by_cases hmp : env.hasMousePositionData
              · cases h5 : approach5 env si slideShapes with
                | some si5 =>
                  obtain ⟨t, ht⟩ := approach5_tag h5
                  simp [h1, h2, hemp, h3, h4, hmp, h5, ht, claimTag_some _ _ _ hm]
                | none =>
                  simp [h1, h2, hemp, h3, h4, hmp, h5, hm]
              · simp [h1, h2, hemp, h3, h4, hmp, hm]

theorem detectPicturesSpecifically_preserves_tag (env : HostEnv) (si : SelectionInfo)
    (m : String) (hm : si.detectionMethod = some m) :
    (detectPicturesSpecifically env si).detectionMethod = some m := by
  unfold detectPicturesSpecifically
  split
  · exact hm
  next slideShapes rest heq =>
    dsimp only
    split_ifs <;> simp_all [claimTag]

theorem headI_mem {l : List Shape} (h : l ≠ []) : l.headI ∈ l := by
  cases l with
  | nil => exact absurd rfl h
  | cons a t => exact List.mem_cons_self a t

theorem sortByModifiedDesc_ne_nil {l : List Shape} (h : l ≠ []) :
    sortByModifiedDesc l ≠ [] := by
  intro hc
  apply h
  have hlen := (List.perm_insertionSort modTopRel l).length_eq
  rw [sortByModifiedDesc] at hc
  rw [hc] at hlen
  exact List.length_eq_zero.mp hlen.symm

theorem positionScan_requires_mouse (env : HostEnv) (si : SelectionInfo)
    (h : Approach.positionScan ∈ (detectShapesDirectly env si).2) :
    env.hasMousePositionData = true := by
  unfold detectShapesDirectly at h
  split at h
  · simp at h
  · split at h
    · simp at h
    · split at h
      · simp at h
      · split at h
        · simp at h
        · split at h
          · simp at h
          · split at h
            · simp at h
            · split at h
              · assumption
              · simp at h

/-- Claim C1 counterexample: the claim says every later channel leaves an
already-set `detectionMethod` unchanged, but the text channel
(`detectSelectionText`, part_001 line 135) assigns the tag
unconditionally.  The three channels run under `Promise.all` with no
completion-order guarantee; when the shape cascade has already claimed
"direct-selection", a later-completing text channel overwrites it with
"text", so the tag is assigned twice in one pass. -/
theorem C1_counterexample :
    ((detectShapesDirectly
        { selectedSlides := [[boxShape]], getSelection := Except.ok [boxShape],
          activeViewSelection := Except.error "na", hasMousePositionData := false,
          lastClickedPosition := (0, 0), selectedTextValue := some "hello" }
        emptySelectionInfo).1.detectionMethod = some "direct-selection") ∧
    ((detectSelectionText
        { selectedSlides := [[boxShape]], getSelection := Except.ok [boxShape],
          activeViewSelection := Except.error "na", hasMousePositionData := false,
          lastClickedPosition := (0, 0), selectedTextValue := some "hello" }
        (detectShapesDirectly
          { selectedSlides := [[boxShape]], getSelection := Except.ok [boxShape],
            activeViewSelection := Except.error "na", hasMousePositionData := false,
            lastClickedPosition := (0, 0), selectedTextValue := some "hello" }
          emptySelectionInfo).1 "").1.detectionMethod = some "text") :=
  ⟨rfl, rfl⟩

/-- Claim C1 (amended): the shape cascade and the picture-specific
sub-cascade set the method tag only when it is unset and leave an
already-set tag unchanged even while appending shapes or pictures; the
text channel, however, sets the tag to "text" unconditionally whenever
the host reports non-empty selected text, so it overwrites any tag that
was written before it ran. -/
theorem C1_tag_discipline :
    (∀ (env : HostEnv) (si : SelectionInfo) (m : String), si.detectionMethod = some m →
      (detectPicturesSpecifically env si).detectionMethod = some m) ∧
    (∀ (env : HostEnv) (si : SelectionInfo) (m : String), si.detectionMethod = some m →
      (detectShapesDirectly env si).1.detectionMethod = some m) ∧
    (∀ (env : HostEnv) (si : SelectionInfo) (lastText v : String),
      env.selectedTextValue = some v → 0 < v.length →
      (detectSelectionText env si lastText).1.detectionMethod = some "text") := by
  refine ⟨detectPicturesSpecifically_preserves_tag, detectShapesDirectly_preserves_tag, ?_⟩
  intro env si lastText v hv hlen
  simp [detectSelectionText, hv, hlen]

/-- Claim C1 witness: the amended statement applied at concrete inputs. -/
theorem C1_witness :
    (detectPicturesSpecifically (envNoApi [[picShape]] false (0, 0) none)
        { detectionMethod := some "text" }).detectionMethod = some "text" ∧
    (detectShapesDirectly (envNoApi [[boxShape]] false (0, 0) none)
        { detectionMethod := some "text" }).1.detectionMethod = some "text" ∧
    (detectSelectionText (envNoApi [] false (0, 0) (some "hi")) emptySelectionInfo
        "").1.detectionMethod = some "text" :=
  ⟨C1_tag_discipline.1 _ _ "text" rfl,
   C1_tag_discipline.2.1 _ _ "text" rfl,
   C1_tag_discipline.2.2 _ _ "" "hi" rfl (by decide)⟩

/-- Claim C2: when strategies 1 and 2 are unavailable (their host calls
throw), strategy 3 keeps exactly the shapes of the slide whose
`isSelected` flag is true — all of them, order-independently
(membership is characterised for every shape). -/
theorem C2_selected_flag_scan (env : HostEnv) (si : SelectionInfo)
    (slideShapes : List Shape) (more : List (List Shape)) (e1 e2 : String)
    (hs : env.selectedSlides = slideShapes :: more)
    (h1 : env.getSelection = Except.error e1)
    (h2 : env.activeViewSelection = Except.error e2)
    (hne : slideShapes.filter (fun sh => sh.isSelected) ≠ []) :
    (detectShapesDirectly env si).1.shapes =
      slideShapes.filter (fun sh => sh.isSelected) ∧
    ∀ s : Shape, s ∈ (detectShapesDirectly env si).1.shapes ↔
      s ∈ slideShapes ∧ s.isSelected = true := by
  have hA1 := approach1_error si h1
  have hA2 := approach2_error si h2
  have hlen : 0 < (slideShapes.filter (fun sh => sh.isSelected)).length :=
    List.length_pos.mpr hne
  have hemp : slideShapes.isEmpty = false := by
    cases slideShapes with
    | nil => simp at hne
    | cons a t => rfl
  have hA3 : approach3 si slideShapes =
      some { si with shapes := slideShapes.filter (fun sh => sh.isSelected),
                     detectionMethod := claimTag si.detectionMethod "isSelected" } := by
    unfold approach3
    dsimp only
    rw [if_pos hlen]
  constructor
  · simp [detectShapesDirectly, hs, hA1, hA2, hemp, hA3]
  · intro s
    simp [detectShapesDirectly, hs, hA1, hA2, hemp, hA3, List.mem_filter]

/-- Claim C2 witness: the theorem applied to a slide holding one selected
and one unselected shape. -/
theorem C2_witness :
    (detectShapesDirectly (envNoApi [[boxShape, picShape]] false (0, 0) none)
        emptySelectionInfo).1.shapes =
      List.filter (fun sh => sh.isSelected) [boxShape, picShape] :=
  (C2_selected_flag_scan (envNoApi [[boxShape, picShape]] false (0, 0) none)
    emptySelectionInfo [boxShape, picShape] [] _ _ rfl rfl rfl (by decide)).1

/-- Claim C3: strategy 5 (cursor-position containment) collects exactly
the shapes whose (left, top, width, height) box contains the last
captured position; its output is the non-empty containing set ordered
descending by z-index, so its head carries the maximum z-index of that
set; and the strategy region is entered only when the cursor state has
been populated (`hasMousePositionData`). -/
theorem C3_position_containment :
    (∀ (env : HostEnv) (si : SelectionInfo) (slideShapes : List Shape)
        (more : List (List Shape)) (e1 e2 : String),
      env.selectedSlides = slideShapes :: more →
      env.getSelection = Except.error e1 →
      env.activeViewSelection = Except.error e2 →
      slideShapes.filter (fun sh => sh.isSelected) = [] →
      slideShapes.filter (fun sh => sh.lastModified.isSome) = [] →
      env.hasMousePositionData = true →
      slideShapes.filter (pointInShape env.lastClickedPosition) ≠ [] →
      si.detectionMethod = none →
      (detectShapesDirectly env si).1.detectionMethod = some "position" ∧
      (∀ s : Shape, s ∈ (detectShapesDirectly env si).1.shapes ↔
        s ∈ slideShapes ∧ pointInShape env.lastClickedPosition s = true) ∧
      (detectShapesDirectly env si).1.shapes ≠ [] ∧
      (detectShapesDirectly env si).1.shapes.headI ∈ (detectShapesDirectly env si).1.shapes ∧
      (∀ s ∈ (detectShapesDirectly env si).1.shapes,
        s.zIndex ≤ (detectShapesDirectly env si).1.shapes.headI.zIndex)) ∧
    (∀ (env : HostEnv) (si : SelectionInfo),
      Approach.positionScan ∈ (detectShapesDirectly env si).2 →
      env.hasMousePositionData = true) := by
  constructor
  · intro env si slideShapes more e1 e2 hs h1 h2 hsel hmod hmp hcont hmethod
    have hA1 := approach1_error si h1
    have hA2 := approach2_error si h2
    have hemp : slideShapes.isEmpty = false := by
      cases slideShapes with
      | nil => simp at hcont
      | cons a t => rfl
    have hA3 : approach3 si slideShapes = none := by
      unfold approach3
      dsimp only
      rw [hsel]
      rfl
    have hA4 : approach4 si slideShapes = none := by
      unfold approach4
      dsimp only
      rw [hmod]
      rfl
    have hA5 : approach5 env si slideShapes =
        some { si with
               shapes := sortByZDesc (slideShapes.filter (pointInShape env.lastClickedPosition)),
               detectionMethod := claimTag si.detectionMethod "position" } := by
      unfold approach5
      dsimp only
      rw [if_pos (List.length_pos.mpr hcont)]
    have hres : (detectShapesDirectly env si).1 =
        { si with
          shapes := sortByZDesc (slideShapes.filter (pointInShape env.lastClickedPosition)),
          detectionMethod := claimTag si.detectionMethod "position" } := by
      simp [detectShapesDirectly, hs, hA1, hA2, hemp, hA3, hA4, hmp, hA5]
    rw [hres]
    have hne := sortByZDesc_ne_nil hcont
    refine ⟨by simp [hmethod, claimTag_none], ?_, hne, headI_mem hne, ?_⟩
    · intro s
      simp [mem_sortByZDesc, List.mem_filter]
    · intro s hmem
      exact headI_zIndex_max (sortByZDesc_sorted _) s hmem
  · exact positionScan_requires_mouse

/-- Claim C3 witness: two overlapping shapes both containing the captured
point (15, 15); the picture (z-index 5) is placed before the box
(z-index 1). -/
theorem C3_witness :
    (detectShapesDirectly (envNoApi [[boxRect, picRect]] true (15, 15) none)
        emptySelectionInfo).1.detectionMethod = some "position" ∧
    (detectShapesDirectly (envNoApi [[boxRect, picRect]] true (15, 15) none)
        emptySelectionInfo).1.shapes ≠ [] ∧
    (∀ s ∈ (detectShapesDirectly (envNoApi [[boxRect, picRect]] true (15, 15) none)
        emptySelectionInfo).1.shapes,
      s.zIndex ≤ ((detectShapesDirectly (envNoApi [[boxRect, picRect]] true (15, 15) none)
        emptySelectionInfo).1.shapes.headI).zIndex) := by
  have h := C3_position_containment.1 (envNoApi [[boxRect, picRect]] true (15, 15) none)
    emptySelectionInfo [boxRect, picRect] [] _ _ rfl rfl rfl (by decide) (by decide)
    rfl (by decide) rfl
  exact ⟨h.1, h.2.2.1, h.2.2.2.2⟩

set_option maxRecDepth 100000 in
/-- Claim C4: strategy 1 throwing an unsupported-API error is caught
locally and the cascade continues; when strategy 3 then finds one
selected shape the pass completes with the tag "isSelected" (not
"direct-selection").  The closed conjuncts evaluate a full pass on a
concrete such host: the displayed report names the strategy-3 method
and contains no error text. -/
theorem C4_error_isolated :
    (∀ (env : HostEnv) (slideShapes : List Shape) (more : List (List Shape))
        (e1 e2 : String) (s : Shape),
      env.selectedSlides = slideShapes :: more →
      env.getSelection = Except.error e1 →
      env.activeViewSelection = Except.error e2 →
      slideShapes.filter (fun sh => sh.isSelected) = [s] →
      (detectShapesDirectly env emptySelectionInfo).1.detectionMethod = some "isSelected" ∧
      (detectShapesDirectly env emptySelectionInfo).1.shapes = [s]) ∧
    strContainsSub (detectSelectedElementPass (envNoApi [[boxShape]] false (0, 0) none) "").1
      "Detection method: isSelected" = true ∧
    strContainsSub (detectSelectedElementPass (envNoApi [[boxShape]] false (0, 0) none) "").1
      "Error" = false := by
  refine ⟨?_, by decide, by decide⟩
  intro env slideShapes more e1 e2 s hs h1 h2 hsel
  have hA1 := approach1_error emptySelectionInfo h1
  have hA2 := approach2_error emptySelectionInfo h2
  have hlen : 0 < (slideShapes.filter (fun sh => sh.isSelected)).length := by
    rw [hsel]; simp
  have hemp : slideShapes.isEmpty = false := by
    cases slideShapes with
    | nil => simp at hsel
    | cons a t => rfl
  have hA3 : approach3 emptySelectionInfo slideShapes =
      some { emptySelectionInfo with
             shapes := slideShapes.filter (fun sh => sh.isSelected),
             detectionMethod := claimTag emptySelectionInfo.detectionMethod "isSelected" } := by
    unfold approach3
    dsimp only
    rw [if_pos hlen]
  have hres : (detectShapesDirectly env emptySelectionInfo).1 =
      { emptySelectionInfo with
        shapes := slideShapes.filter (fun sh => sh.isSelected),
        detectionMethod := claimTag emptySelectionInfo.detectionMethod "isSelected" } := by
    simp [detectShapesDirectly, hs, hA1, hA2, hemp, hA3]
  rw [hres]
  exact ⟨rfl, hsel⟩

/-- Claim C4 witness: the universal part applied to a host whose
strategy-1 call throws and whose slide carries one selected shape. -/
theorem C4_witness :
    (detectShapesDirectly (envNoApi [[boxShape]] false (0, 0) none)
        emptySelectionInfo).1.detectionMethod = some "isSelected" :=
  (C4_error_isolated.1 (envNoApi [[boxShape]] false (0, 0) none) [boxShape] [] _ _
    boxShape rfl rfl rfl (by decide)).1

theorem debounceRun_quiet (rest : List Nat) :
    ∀ p : Nat, List.Chain (fun a b => a ≤ b ∧ b < a + debounceDelay) p rest →
      debounceRun p rest =
        [(p :: rest).getLast (List.cons_ne_nil p rest) + debounceDelay] := by
  induction rest with
  | nil => intro p _; rfl
  | cons e rest ih =>
    intro p h
    cases h with
    | cons hpe hchain =>
      simp only [debounceRun]
      rw [if_pos hpe.2, ih e hchain]
      rfl

/-- Claim C5: for a burst of selection-change events whose inter-arrival
gaps are all under the 300-unit quiet period, exactly one detection
pass fires, at the last event's time plus 300 — each event cancels the
pending timer and restarts it, never queuing a second pass. -/
theorem C5_debounce_burst (e : Nat) (rest : List Nat)
    (h : List.Chain (fun a b => a ≤ b ∧ b < a + debounceDelay) e rest) :
    debounceFires (e :: rest) =
      [(e :: rest).getLast (List.cons_ne_nil e rest) + debounceDelay] :=
  debounceRun_quiet rest e h

/-- Claim C5 witness: the spec's example burst t = 0, 100, 200, 250 fires
once, at t = 550. -/
theorem C5_witness : debounceFires [0, 100, 200, 250] = [550] :=
  (C5_debounce_burst 0 [100, 200, 250]
    (by simp only [List.chain_cons, List.Chain.nil, and_true, debounceDelay]; omega)).trans rfl

/-- Claim C6: on a slide with zero shapes (and a host whose selection
surfaces consequently report nothing), the pass terminates with the
"no elements found" report, and the shape cascade stops at the
empty-check: its trace records only the two selection queries that the
source runs before that check, and no strategy beyond it. -/
theorem C6_empty_slide (env : HostEnv) (more : List (List Shape)) (lastText : String)
    (hs : env.selectedSlides = [] :: more)
    (h1 : ∀ l, env.getSelection = Except.ok l → l = [])
    (h2 : ∀ l, env.activeViewSelection = Except.ok (some l) → l = [])
    (htext : ∀ v, env.selectedTextValue = some v → v.length = 0) :
    detectSelectedElementPass env lastText =
      ("No element is currently selected.\n\nNo elements found on the current slide.",
        lastText) ∧
    ∀ si : SelectionInfo,
      detectShapesDirectly env si = (si, [Approach.directSelection, Approach.activeView]) := by
  have hA1 : ∀ si : SelectionInfo, approach1 env si = none := by
    intro si
    unfold approach1
    cases hgs : env.getSelection with
    | error e => rfl
    | ok l =>
      have hl := h1 l hgs
      subst hl
      rfl
  have hA2 : ∀ si : SelectionInfo, approach2 env si = none := by
    intro si
    unfold approach2
    cases hgs : env.activeViewSelection with
    | error e => rfl
    | ok v =>
      cases v with
      | none => rfl
      | some l =>
        have hl := h2 l hgs
        subst hl
        rfl
  have hD : ∀ si : SelectionInfo,
      detectShapesDirectly env si = (si, [Approach.directSelection, Approach.activeView]) := by
    intro si
    simp [detectShapesDirectly, hs, hA1, hA2]
  have hT : detectSelectionText env emptySelectionInfo lastText =
      (emptySelectionInfo, lastText) := by
    unfold detectSelectionText
    cases htv : env.selectedTextValue with
    | none => rfl
    | some v =>
      have hv := htext v htv
      dsimp only
      rw [if_neg (show ¬0 < v.length by omega)]
  have hP : ∀ si : SelectionInfo, detectPicturesSpecifically env si = si := by
    intro si
    unfold detectPicturesSpecifically
    rw [hs]
    rfl
  refine ⟨?_, hD⟩
  unfold detectSelectedElementPass
  rw [hT]
  dsimp only
  rw [hP, hD]
  rfl

/-- Claim C6 witness: the theorem applied to a host with one empty
selected slide and no usable selection surfaces. -/
theorem C6_witness :
    detectSelectedElementPass (envNoApi [[]] false (0, 0) none) "" =
      ("No element is currently selected.\n\nNo elements found on the current slide.",
        "") :=
  (C6_empty_slide (envNoApi [[]] false (0, 0) none) [] "" rfl
    (by intro l h; cases h) (by intro l h; cases h) (by intro v h; cases h)).1

/-- Claim C7: when strategies 1-3 yield nothing, strategy 4 keeps exactly
one shape, drawn from the set of shapes carrying a `lastModified`
timestamp and carrying the maximum timestamp of that set, and it tags
the pass "lastModified" — the tag the display reports so the user can
see the result is the most-recently-modified guess. -/
theorem C7_last_modified (env : HostEnv) (slideShapes : List Shape)
    (more : List (List Shape)) (e1 e2 : String)
    (hs : env.selectedSlides = slideShapes :: more)
    (h1 : env.getSelection = Except.error e1)
    (h2 : env.activeViewSelection = Except.error e2)
    (hsel : slideShapes.filter (fun sh => sh.isSelected) = [])
    (hmod : slideShapes.filter (fun sh => sh.lastModified.isSome) ≠ []) :
    (detectShapesDirectly env emptySelectionInfo).1.detectionMethod = some "lastModified" ∧
    ∃ m : Shape, (detectShapesDirectly env emptySelectionInfo).1.shapes = [m] ∧
      m ∈ slideShapes.filter (fun sh => sh.lastModified.isSome) ∧
      ∀ s ∈ slideShapes.filter (fun sh => sh.lastModified.isSome),
        modTime s ≤ modTime m := by
  have hA1 := approach1_error emptySelectionInfo h1
  have hA2 := approach2_error emptySelectionInfo h2
  have hemp : slideShapes.isEmpty = false := by
    cases slideShapes with
    | nil => simp at hmod
    | cons a t => rfl
  have hA3 : approach3 emptySelectionInfo slideShapes = none := by
    unfold approach3
    dsimp only
    rw [hsel]
    rfl
  obtain ⟨m, tail, hsort⟩ : ∃ m tail,
      sortByModifiedDesc (slideShapes.filter (fun sh => sh.lastModified.isSome)) =
        m :: tail := by
    cases hsm : sortByModifiedDesc (slideShapes.filter (fun sh => sh.lastModified.isSome)) with
    | nil => exact absurd hsm (sortByModifiedDesc_ne_nil hmod)
    | cons m tail => exact ⟨m, tail, rfl⟩
  have hA4 : approach4 emptySelectionInfo slideShapes =
      some { emptySelectionInfo with
             shapes := [m],
             detectionMethod := claimTag emptySelectionInfo.detectionMethod "lastModified" } := by
    unfold approach4
    dsimp only
    rw [if_pos (List.length_pos.mpr hmod), hsort]
  have hres : (detectShapesDirectly env emptySelectionInfo).1 =
      { emptySelectionInfo with
        shapes := [m],
        detectionMethod := claimTag emptySelectionInfo.detectionMethod "lastModified" } := by
    simp [detectShapesDirectly, hs, hA1, hA2, hemp, hA3, hA4]
  rw [hres]
  have hmI : m = (sortByModifiedDesc
      (slideShapes.filter (fun sh => sh.lastModified.isSome))).headI := by
    rw [hsort]
    rfl
  refine ⟨rfl, m, rfl, ?_, ?_⟩
  · apply mem_sortByModifiedDesc.mp
    rw [hsort]
    exact List.mem_cons_self m tail
  · intro s hsmem
    rw [hmI]
    exact headI_modTime_max (sortByModifiedDesc_sorted _)
      s (mem_sortByModifiedDesc.mpr hsmem)

/-- Claim C7 witness: the theorem applied to a slide with two timestamped
shapes; the later-modified one is the single result. -/
theorem C7_witness :
    (detectShapesDirectly
        (envNoApi [[{ boxRect with lastModified := some 100 },
                     { picRect with lastModified := some 200 }]] false (0, 0) none)
        emptySelectionInfo).1.detectionMethod = some "lastModified" :=
  (C7_last_modified
    (envNoApi [[{ boxRect with lastModified := some 100 },
                { picRect with lastModified := some 200 }]] false (0, 0) none)
    [{ boxRect with lastModified := some 100 }, { picRect with lastModified := some 200 }]
    [] _ _ rfl rfl rfl (by decide) (by decide)).1

theorem findShapeForText_eq_find (selectedText : String) :
    ∀ shapes : List Shape, (∀ s ∈ shapes, s.isSelected = false) →
      findShapeForText shapes selectedText =
        shapes.find? (shapeMatchesText selectedText) := by
  intro shapes
  induction shapes with
  | nil => intro _; rfl
  | cons s rest ih =>
    intro hns
    have hs0 : s.isSelected = false := hns s (List.mem_cons_self s rest)
    have hrest := ih (fun x hx => hns x (List.mem_cons_of_mem s hx))
    by_cases hm : shapeMatchesText selectedText s = true
    · simp [findShapeForText, List.find?_cons, hm]
    · simp only [Bool.not_eq_true] at hm
      simp [findShapeForText, List.find?_cons, hm, hs0, hrest]

/-- Claim C8 counterexample: the claim says the text channel records a
host-reported selection only when it differs from the previously seen
text, but the part_001 variant (`detectSelectionText`) has no such
check: here the host reports "dup" while `lastSelectedText` is already
"dup", and the channel still records it. -/
theorem C8_counterexample :
    (detectSelectionText (envNoApi [] false (0, 0) (some "dup")) emptySelectionInfo
        "dup").1.text = some "dup" := rfl

/-- Claim C8 (amended): the part_002 variant records a host-reported
selection exactly when it is present, non-empty, and different from the
previously seen text; the part_001 variant records whenever it is
present and non-empty, even when identical to the previously seen text.
In the part_002 variant the recorded text is used to search shape text
content by a linear scan in which a shape wins by containing the text
as a substring or by carrying the `isSelected` flag; when no shape is
flagged, the scan returns exactly the first substring match,
independent of position and z-index. -/
theorem C8_text_channel :
    (∀ v lastText : String,
      (detectTextChannelV2 (some v) lastText).1 = some v ↔
        v ≠ lastText ∧ 0 < v.length) ∧
    (∀ (env : HostEnv) (si : SelectionInfo) (lastText v : String),
      env.selectedTextValue = some v → si.text = none →
      ((detectSelectionText env si lastText).1.text = some v ↔ 0 < v.length)) ∧
    (∀ (shapes : List Shape) (selectedText : String),
      (∀ s ∈ shapes, s.isSelected = false) →
      findShapeForText shapes selectedText =
        shapes.find? (shapeMatchesText selectedText)) := by
  refine ⟨?_, ?_, fun shapes t h => findShapeForText_eq_find t shapes h⟩
  · intro v lastText
    unfold detectTextChannelV2
    dsimp only
    split
    next hcond =>
      rw [Bool.and_eq_true, bne_iff_ne, decide_eq_true_eq] at hcond
      simp [hcond]
    next hcond =>
      rw [Bool.and_eq_true, bne_iff_ne, decide_eq_true_eq] at hcond
      push_neg at hcond
      constructor
      · intro h
        exact absurd h (by simp)
      · intro ⟨hne, hlen⟩
        exact absurd (hcond hne) (by omega)
  · intro env si lastText v hv htext
    unfold detectSelectionText
    rw [hv]
    dsimp only
    split
    next hlen => simp [hlen]
    next hlen =>
      rw [htext]
      simp
      omega

/-- Claim C8 witness: the amended statement applied at concrete inputs —
a fresh text "ab" against previous text "", and a scan over one
unflagged shape whose text contains the query. -/
theorem C8_witness :
    ((detectTextChannelV2 (some "ab") "").1 = some "ab" ↔
      "ab" ≠ "" ∧ 0 < ("ab").length) ∧
    ((detectSelectionText (envNoApi [] false (0, 0) (some "hi")) emptySelectionInfo
        "").1.text = some "hi" ↔ 0 < ("hi").length) ∧
    findShapeForText [boxRect] "BigBox" =
      [boxRect].find? (shapeMatchesText "BigBox") :=
  ⟨C8_text_channel.1 "ab" "",
   C8_text_channel.2.1 (envNoApi [] false (0, 0) (some "hi")) emptySelectionInfo
     "" "hi" rfl rfl,
   C8_text_channel.2.2 [boxRect] "BigBox" (by decide)⟩

set_option maxRecDepth 100000 in
/-- Claim C9: formatting a SelectionInfo holding one Picture-kind shape
with id "p1", name "Logo", position (10, 20), size 100 x 50, z-index 2
and alt text "A logo" yields a report containing the literal substrings
"Logo", "(ID: p1)", "(10, 20)", "100 x 50" and "A logo". -/
theorem C9_round_trip :
    strContainsSub (displaySelectionInfo { pictures := [logoPicture] }) "Logo" = true ∧
    strContainsSub (displaySelectionInfo { pictures := [logoPicture] }) "(ID: p1)" = true ∧
    strContainsSub (displaySelectionInfo { pictures := [logoPicture] }) "(10, 20)" = true ∧
    strContainsSub (displaySelectionInfo { pictures := [logoPicture] }) "100 x 50" = true ∧
    strContainsSub (displaySelectionInfo { pictures := [logoPicture] }) "A logo" = true := by
  refine ⟨by decide, by decide, by decide, by decide, by decide⟩

/-- Claim C10: the point-in-rectangle test of the position-based
strategies is inclusive on all four edges: a captured position lying
exactly on the left, right, top or bottom edge (the other coordinate in
range) is counted as contained; and containment holds exactly when both
coordinates lie within the closed intervals. -/
theorem C10_inclusive_bounds (s : Shape) (p : Int × Int)
    (hw : 0 ≤ s.width) (hh : 0 ≤ s.height) :
    ((p.1 = s.left ∨ p.1 = s.left + s.width) →
      s.top ≤ p.2 → p.2 ≤ s.top + s.height → pointInShape p s = true) ∧
    ((p.2 = s.top ∨ p.2 = s.top + s.height) →
      s.left ≤ p.1 → p.1 ≤ s.left + s.width → pointInShape p s = true) ∧
    (pointInShape p s = true ↔
      s.left ≤ p.1 ∧ p.1 ≤ s.left + s.width ∧ s.top ≤ p.2 ∧ p.2 ≤ s.top + s.height) := by
  refine ⟨?_, ?_, ?_⟩
  · rintro (h | h) h1 h2 <;>
      (simp only [pointInShape, Bool.and_eq_true, decide_eq_true_eq]; omega)
  · rintro (h | h) h1 h2 <;>
      (simp only [pointInShape, Bool.and_eq_true, decide_eq_true_eq]; omega)
  · simp only [pointInShape, Bool.and_eq_true, decide_eq_true_eq]
    tauto

/-- Claim C10 witness: the edge cases and the characterisation applied to
a concrete 4 x 3 rectangle at the origin with points on its edges. -/
theorem C10_witness :
    pointInShape (0, 1) { left := 0, top := 0, width := 4, height := 3 } = true ∧
    pointInShape (2, 3) { left := 0, top := 0, width := 4, height := 3 } = true :=
  ⟨(C10_inclusive_bounds { left := 0, top := 0, width := 4, height := 3 } (0, 1)
      (by decide) (by decide)).1 (Or.inl rfl) (by decide) (by decide),
   (C10_inclusive_bounds { left := 0, top := 0, width := 4, height := 3 } (2, 3)
      (by decide) (by decide)).2.1 (Or.inr rfl) (by decide) (by decide)⟩

end PPAddin
